import Mathlib

/-!
Verification development for the epoch-outlook climate-outlook repository.

The numeric model uses exact rationals (`ℚ`) for JavaScript numbers; every
inequality settled below has slack far above double-precision rounding error,
and the counterexample inequalities hold for IEEE doubles as well.
JavaScript `Infinity` values (from `Math.min`/`Math.max` of an empty list)
are modelled by the `JsNum` type.  Functions are translated from the
repository sources:
  * `src/lib/api/outlook.ts`            (mock BFF model, `getOutlook`)
  * `src/pages/api/outlook.ts`          (validators, `handleOutlookRequest`)
  * `supabase/functions/weather-forecast/index.ts` (both serve handlers)
  * the Results page (daily-forecast transformation and fetch guard)
-/

/-- JavaScript `Math.round`: round half toward positive infinity. -/
def jsRound (q : ℚ) : ℤ := Int.floor (q + 1/2)

/-- The repository's pervasive `Math.round(x * 10) / 10` one-decimal rounding. -/
def round1 (q : ℚ) : ℚ := ((jsRound (q * 10) : ℤ) : ℚ) / 10

/-- Model of `Number(x.toFixed(4))` used for metadata coordinates. -/
def toFixed4 (q : ℚ) : ℚ := ((jsRound (q * 10000) : ℤ) : ℚ) / 10000

/-- JavaScript truthiness of a number: `0` (and `NaN`, absent from `ℚ`) is falsy. -/
def jsTruthyNum (q : ℚ) : Bool := decide (q ≠ 0)

/-- JavaScript truthiness of a string: the empty string is falsy. -/
def jsTruthyStr (s : String) : Bool := decide (s ≠ "")

/-- JavaScript `x || d` for an optional number `x` (undefined and 0 fall back). -/
def jsOrQ (o : Option ℚ) (d : ℚ) : ℚ :=
  match o with
  | none => d
  | some q => if q = 0 then d else q

/-- JavaScript `x || d` for an optional string (undefined and "" fall back). -/
def jsOrS (o : Option String) (d : String) : String :=
  match o with
  | none => d
  | some s => if s = "" then d else s

/-- Truthiness of an optional JavaScript number (undefined is falsy). -/
def optTruthyQ (o : Option ℚ) : Bool :=
  match o with
  | none => false
  | some q => decide (q ≠ 0)

/-- Truthiness of an optional JavaScript string (undefined is falsy). -/
def optTruthyS (o : Option String) : Bool :=
  match o with
  | none => false
  | some s => decide (s ≠ "")

/-- A JavaScript number that may be one of the infinities produced by
`Math.min()` / `Math.max()` over an empty argument list. -/
inductive JsNum where
  | posInf : JsNum
  | negInf : JsNum
  | val : ℚ → JsNum
deriving DecidableEq

/-- JavaScript `Math.min(...list)`: `Infinity` on the empty list. -/
def jsMinList : List ℚ → JsNum
  | [] => JsNum.posInf
  | x :: xs => JsNum.val (xs.foldl min x)

/-- JavaScript `Math.max(...list)`: `-Infinity` on the empty list. -/
def jsMaxList : List ℚ → JsNum
  | [] => JsNum.negInf
  | x :: xs => JsNum.val (xs.foldl max x)

/-- Arithmetic mean of a list of rationals (the specification's definition). -/
def arithMean (l : List ℚ) : ℚ := l.sum / (l.length : ℚ)

/-- The two unit systems accepted by the API. -/
inductive UnitsSys where
  | metric : UnitsSys
  | imperial : UnitsSys
deriving DecidableEq

/-- String form of a unit system, as sent in metadata. -/
def unitsStr : UnitsSys → String
  | UnitsSys.metric => "metric"
  | UnitsSys.imperial => "imperial"

/-- Scenario temperature block of `generateScenario` (src/lib/api/outlook.ts). -/
structure TempsS where
  mean : ℚ
  tMax : ℚ
  tMin : ℚ
  std : ℚ
deriving DecidableEq

/-- Scenario precipitation block of `generateScenario`. -/
structure PrecipS where
  mean : ℚ
  p50 : ℚ
  p90 : ℚ
  rainChance : ℚ
deriving DecidableEq

/-- Scenario wind block of `generateScenario`. -/
structure WindS where
  mean : ℚ
  p90 : ℚ
deriving DecidableEq

/-- One risk entry of a mock scenario. -/
structure MockRisk where
  rtype : String
  level : String
  prob : ℚ
  rule : String
deriving DecidableEq

/-- A mock scenario returned by `generateScenario`. -/
structure Scenario where
  temps : TempsS
  precip : PrecipS
  wind : WindS
  risks : List MockRisk
deriving DecidableEq

/-- Extreme Hot Desert scenario (hash < 0.4) of `generateScenario`. -/
def hotDesert : UnitsSys → Scenario
  | UnitsSys.metric =>
    ⟨⟨42, 48, 35, 3.5⟩, ⟨0.1, 0, 0.5, 5⟩, ⟨2.5, 4.2⟩,
     [⟨"very_hot", "high", 85, "Heat Index ≥ 40°C"⟩,
      ⟨"very_uncomfortable", "high", 78, "Extreme heat conditions"⟩]⟩
  | UnitsSys.imperial =>
    ⟨⟨108, 118, 95, 6.3⟩, ⟨0.004, 0, 0.02, 5⟩, ⟨5.6, 9.4⟩,
     [⟨"very_hot", "high", 85, "Heat Index ≥ 104°F"⟩,
      ⟨"very_uncomfortable", "high", 78, "Extreme heat conditions"⟩]⟩

/-- Extreme Cold Winter scenario (0.4 ≤ hash < 0.6) of `generateScenario`. -/
def coldWinter : UnitsSys → Scenario
  | UnitsSys.metric =>
    ⟨⟨-15, -8, -22, 4.2⟩, ⟨1.5, 0.8, 4.5, 45⟩, ⟨8.5, 14.2⟩,
     [⟨"very_cold", "high", 92, "Wind Chill ≤ -20°C"⟩,
      ⟨"very_windy", "high", 68, "Wind speed ≥ 12 m/s"⟩]⟩
  | UnitsSys.imperial =>
    ⟨⟨5, 18, -8, 7.6⟩, ⟨0.06, 0.03, 0.18, 45⟩, ⟨19, 32⟩,
     [⟨"very_cold", "high", 92, "Wind Chill ≤ -4°F"⟩,
      ⟨"very_windy", "high", 68, "Wind speed ≥ 27 mph"⟩]⟩

/-- Monsoon/Hurricane Season scenario (0.6 ≤ hash < 0.8) of `generateScenario`. -/
def monsoon : UnitsSys → Scenario
  | UnitsSys.metric =>
    ⟨⟨28, 32, 24, 2.1⟩, ⟨45, 38, 95, 88⟩, ⟨12, 22⟩,
     [⟨"very_wet", "high", 88, "Heavy rainfall ≥ 30mm/day"⟩,
      ⟨"very_windy", "high", 75, "Storm conditions ≥ 15 m/s"⟩]⟩
  | UnitsSys.imperial =>
    ⟨⟨82, 90, 75, 3.8⟩, ⟨1.77, 1.5, 3.74, 88⟩, ⟨27, 49⟩,
     [⟨"very_wet", "high", 88, "Heavy rainfall ≥ 1.2in/day"⟩,
      ⟨"very_windy", "high", 75, "Storm conditions ≥ 34 mph"⟩]⟩

/-- Moderate/Pleasant scenario (hash ≥ 0.8) of `generateScenario`. -/
def moderate : UnitsSys → Scenario
  | UnitsSys.metric =>
    ⟨⟨22, 27, 17, 2.5⟩, ⟨2.5, 1.2, 8, 35⟩, ⟨4.2, 7.5⟩,
     [⟨"very_wet", "low", 15, "Light rain possible"⟩]⟩
  | UnitsSys.imperial =>
    ⟨⟨72, 81, 63, 4.5⟩, ⟨0.1, 0.05, 0.31, 35⟩, ⟨9.4, 16.8⟩,
     [⟨"very_wet", "low", 15, "Light rain possible"⟩]⟩

/-- Scenario table of `generateScenario(lat, lon, doy, units)`.  The branch
selector `h` stands for `Math.abs(Math.sin(lat * lon * doy))`, a pure
function of the inputs with values in `[0, 1]`; it is `0` whenever
`lat = 0` or `lon = 0` or `doy = 0`, so every branch bound below is
compared against an explicit reachable value. -/
def generateScenario (h : ℚ) (u : UnitsSys) : Scenario :=
  if h < 0.4 then hotDesert u
  else if h < 0.6 then coldWinter u
  else if h < 0.8 then monsoon u
  else moderate u

/-- One row of the `summary` array of an outlook response (`VariableSummary`). -/
structure SummaryRow where
  var : String
  unit : String
  mean : ℚ
  std : ℚ
  p10 : ℚ
  p25 : ℚ
  p50 : ℚ
  p75 : ℚ
  p90 : ℚ
deriving DecidableEq

/-- One row of the `probabilities` array (`ExceedanceProbability`). -/
structure ProbRow where
  metric : String
  threshold : ℚ
  comparator : String
  probability_percent : ℚ
deriving DecidableEq

/-- One `risk_labels` entry of the mock response (`RiskLabel`). -/
structure RiskRow where
  risk_type : String
  level : String
  probability_percent : ℚ
  rule_applied : String
deriving DecidableEq

/-- The seven `summary` rows built by `getOutlook` from a scenario
(src/lib/api/outlook.ts, lines 138-216). -/
def summaryRows (sc : Scenario) (u : UnitsSys) : List SummaryRow :=
  [ ⟨"t_mean", if u = UnitsSys.metric then "°C" else "°F",
     sc.temps.mean, sc.temps.std,
     sc.temps.mean - sc.temps.std * 1.5, sc.temps.mean - sc.temps.std * 0.7,
     sc.temps.mean,
     sc.temps.mean + sc.temps.std * 0.7, sc.temps.mean + sc.temps.std * 1.5⟩,
    ⟨"t_max", if u = UnitsSys.metric then "°C" else "°F",
     sc.temps.tMax, sc.temps.std,
     sc.temps.tMax - sc.temps.std * 1.5, sc.temps.tMax - sc.temps.std * 0.7,
     sc.temps.tMax,
     sc.temps.tMax + sc.temps.std * 0.7, sc.temps.tMax + sc.temps.std * 1.5⟩,
    ⟨"t_min", if u = UnitsSys.metric then "°C" else "°F",
     sc.temps.tMin, sc.temps.std,
     sc.temps.tMin - sc.temps.std * 1.5, sc.temps.tMin - sc.temps.std * 0.7,
     sc.temps.tMin,
     sc.temps.tMin + sc.temps.std * 0.7, sc.temps.tMin + sc.temps.std * 1.5⟩,
    ⟨"rh_mean", "%", 48, 9, 35, 42, 48, 54, 62⟩,
    ⟨"dew_point", if u = UnitsSys.metric then "°C" else "°F",
     if u = UnitsSys.metric then 13.5 else 56.3,
     if u = UnitsSys.metric then 1.7 else 3.1,
     if u = UnitsSys.metric then 11.2 else 52.2,
     if u = UnitsSys.metric then 12.3 else 54.1,
     if u = UnitsSys.metric then 13.4 else 56.1,
     if u = UnitsSys.metric then 14.5 else 58.1,
     if u = UnitsSys.metric then 15.8 else 60.4⟩,
    ⟨"wind10m", if u = UnitsSys.metric then "m/s" else "mph",
     sc.wind.mean, sc.wind.mean * 0.3,
     sc.wind.mean * 0.6, sc.wind.mean * 0.8, sc.wind.mean,
     sc.wind.mean * 1.2, sc.wind.p90⟩,
    ⟨"precip_mm", if u = UnitsSys.metric then "mm/d" else "in/d",
     sc.precip.mean, sc.precip.mean * 2.5,
     0.0, sc.precip.mean * 0.1, sc.precip.p50,
     sc.precip.mean * 0.7, sc.precip.p90⟩ ]

/-- The `summary` array produced by `getOutlook` for hash value `h`. -/
def getOutlookSummary (h : ℚ) (u : UnitsSys) : List SummaryRow :=
  summaryRows (generateScenario h u) u

/-- The `probabilities` array produced by `getOutlook`. -/
def getOutlookProbabilities (h : ℚ) (u : UnitsSys) : List ProbRow :=
  let sc := generateScenario h u
  [ ⟨"t_max", sc.temps.tMax - 5, ">=", jsOrQ ((sc.risks.head?).map MockRisk.prob) 20⟩,
    ⟨"precip_mm", if u = UnitsSys.metric then 1 else 0.04, ">=", sc.precip.rainChance⟩,
    ⟨"precip_mm", sc.precip.p90 * 0.8, ">=", min (sc.precip.rainChance * 0.3) 10⟩,
    ⟨"wind10m", sc.wind.p90 * 0.7, ">=",
     jsOrQ ((sc.risks.find? (fun r => r.rtype == "very_windy")).map MockRisk.prob) 10⟩ ]

/-- The `risk_labels` array produced by `getOutlook`. -/
def getOutlookRiskLabels (h : ℚ) (u : UnitsSys) : List RiskRow :=
  (generateScenario h u).risks.map (fun r => ⟨r.rtype, r.level, r.prob, r.rule⟩)

/-- Metadata block of the mock outlook response (constant fields such as the
data-source list and disclaimer strings are omitted: they carry no data). -/
structure OutlookMetadata where
  latitude : ℚ
  longitude : ℚ
  date_requested : String
  doy : ℕ
  window_days : ℚ
  years_used : ℕ
  samples_n : ℚ
  units : String
deriving DecidableEq

/-- The mock outlook response (`OutlookResponse`). -/
structure OutlookResponse where
  metadata : OutlookMetadata
  summary : List SummaryRow
  probabilities : List ProbRow
  risk_labels : List RiskRow
deriving DecidableEq

/-- The mock `getOutlook` of src/lib/api/outlook.ts.  `now` is the ambient
clock at call time (the source only uses it to time a simulated delay),
`h` is the scenario hash `Math.abs(Math.sin(lat * lon * doy))` and `doy`
the day-of-year parsed from `date`; both are pure functions of the request
parameters.  The response embeds no `generatedAt` timestamp. -/
def getOutlook (now : ℕ) (lat lon h : ℚ) (date : String) (doy : ℕ)
    (window : ℚ) (u : UnitsSys) : OutlookResponse :=
  { metadata :=
      ⟨toFixed4 lat, toFixed4 lon, date, doy, window, 22, window * 2 * 22, unitsStr u⟩,
    summary := getOutlookSummary h u,
    probabilities := getOutlookProbabilities h u,
    risk_labels := getOutlookRiskLabels h u }

/-- Percentile-monotonicity check for one summary row. -/
def chainOk (r : SummaryRow) : Bool :=
  decide (r.p10 ≤ r.p25) && decide (r.p25 ≤ r.p50) &&
  decide (r.p50 ≤ r.p75) && decide (r.p75 ≤ r.p90)

/-- The full invariant claimed for a summary array: every row has a
monotone percentile chain and a nonnegative standard deviation. -/
def summaryInvariantOk (l : List SummaryRow) : Bool :=
  l.all (fun r => chainOk r && decide (0 ≤ r.std))

/-- Weakened invariant: std is nonnegative in every row, and every row other
than `precip_mm` has a monotone percentile chain. -/
def summaryExceptPrecipOk (l : List SummaryRow) : Bool :=
  l.all (fun r => decide (0 ≤ r.std) && (r.var == "precip_mm" || chainOk r))

/-- Canonical position of a risk type in the spec's fixed output order. -/
def canonicalIdx (s : String) : ℕ :=
  if s == "very_hot" then 0
  else if s == "very_cold" then 1
  else if s == "very_windy" then 2
  else if s == "very_wet" then 3
  else if s == "very_uncomfortable" then 4
  else 5

/-- Boolean check that a list of naturals is nondecreasing. -/
def nondecreasing : List ℕ → Bool
  | [] => true
  | [_] => true
  | a :: b :: t => decide (a ≤ b) && nondecreasing (b :: t)

/-- Bound check for a percentage value. -/
def percentInRange (q : ℚ) : Bool := decide (0 ≤ q) && decide (q ≤ 100)

/-- Latitude validator of src/pages/api/outlook.ts (`validateLat`). -/
def validateLat (lat : ℚ) : Bool := decide (-90 ≤ lat ∧ lat ≤ 90)

/-- Longitude validator of src/pages/api/outlook.ts (`validateLon`). -/
def validateLon (lon : ℚ) : Bool := decide (-180 ≤ lon ∧ lon ≤ 180)

/-- Window validator of src/pages/api/outlook.ts (`validateWindow`). -/
def validateWindow (w : ℚ) : Bool := decide (7 ≤ w ∧ w ≤ 30)

/-- Units validator of src/pages/api/outlook.ts (`validateUnits`). -/
def validateUnits (u : String) : Bool := u == "metric" || u == "imperial"

/-- Numeric value of a decimal digit character. -/
def digitVal (c : Char) : ℕ := c.toNat - 48

/-- Gregorian leap-year test. -/
def isLeap (y : ℕ) : Bool := (y % 4 == 0 && y % 100 != 0) || y % 400 == 0

/-- Days in a month of a non-leap year. -/
def daysInMonthNL (m : ℕ) : ℕ :=
  match m with
  | 1 => 31 | 2 => 28 | 3 => 31 | 4 => 30 | 5 => 31 | 6 => 30
  | 7 => 31 | 8 => 31 | 9 => 30 | 10 => 31 | 11 => 30 | 12 => 31
  | _ => 31

/-- Days in a month, accounting for leap years. -/
def daysInMonth (y m : ℕ) : ℕ :=
  if m = 2 then (if isLeap y then 29 else 28) else daysInMonthNL m

/-- Date validator of src/pages/api/outlook.ts (`validateDate`): the string
must match `^\d{4}-\d{2}-\d{2}$` and parse to a valid `Date`, which for an
ISO string means in-range month and day components. -/
def validateDate (s : String) : Bool :=
  match s.toList with
  | [y1, y2, y3, y4, h1, m1, m2, h2, d1, d2] =>
    y1.isDigit && y2.isDigit && y3.isDigit && y4.isDigit &&
    h1 == '-' && h2 == '-' &&
    m1.isDigit && m2.isDigit && d1.isDigit && d2.isDigit &&
    (let yr := 1000 * digitVal y1 + 100 * digitVal y2 + 10 * digitVal y3 + digitVal y4
     let mo := 10 * digitVal m1 + digitVal m2
     let da := 10 * digitVal d1 + digitVal d2
     decide (1 ≤ mo) && decide (mo ≤ 12) && decide (1 ≤ da) && decide (da ≤ daysInMonth yr mo))
  | _ => false

/-- A structured API error thrown by `handleOutlookRequest` (status 400,
code INVALID_PARAM, with the indicated message). -/
inductive ApiErr where
  | invalidParam : String → ApiErr
deriving DecidableEq

/-- An incoming request to the BFF endpoint (`OutlookRequest`); `window` and
`units` are optional (JavaScript `undefined` is `none`). -/
structure OutlookReq where
  lat : ℚ
  lon : ℚ
  date : String
  window : Option ℚ
  units : Option String
deriving DecidableEq

/-- The effective parameters passed on to `getOutlook` after validation and
defaulting (`OutlookParams`). -/
structure EffParams where
  lat : ℚ
  lon : ℚ
  date : String
  window : ℚ
  units : String
deriving DecidableEq

/-- Validation layer of `handleOutlookRequest` (src/pages/api/outlook.ts):
each parameter is checked in order; the optional `window` and `units` are
only checked when truthy, and fall back to `15` / `"metric"` via `||`. -/
def handleOutlookRequest (p : OutlookReq) : Except ApiErr EffParams :=
  if !validateLat p.lat then
    Except.error (ApiErr.invalidParam "Latitude must be between -90 and 90.")
  else if !validateLon p.lon then
    Except.error (ApiErr.invalidParam "Longitude must be between -180 and 180.")
  else if !validateDate p.date then
    Except.error (ApiErr.invalidParam "Parameter date must be YYYY-MM-DD.")
  else if optTruthyQ p.window && !validateWindow (p.window.getD 0) then
    Except.error (ApiErr.invalidParam "Window must be between 7 and 30 days.")
  else if optTruthyS p.units && !validateUnits (p.units.getD "") then
    Except.error (ApiErr.invalidParam "Units must be metric or imperial.")
  else
    Except.ok ⟨p.lat, p.lon, p.date, jsOrQ p.window 15, jsOrS p.units "metric"⟩

/-- One hourly observation inside a single local calendar day, as used by the
weather-forecast function: `hour` is `getHours() + getMinutes() / 60` of the
observation's local datetime and `temp` its `temperature_2m` value. -/
structure HourlyObs where
  hour : ℚ
  temp : ℚ
deriving DecidableEq

/-- Sunrise and sunset of the day expressed as fractional hours
(`getHours() + getMinutes() / 60`). -/
structure SunTimes where
  sunriseHour : ℚ
  sunsetHour : ℚ
deriving DecidableEq

/-- Day-bucket test of the weather-forecast aggregation:
`hour >= sunriseHour && hour < sunsetHour`. -/
def dayBucketPred (s : SunTimes) (h : HourlyObs) : Bool :=
  decide (s.sunriseHour ≤ h.hour) && decide (h.hour < s.sunsetHour)

/-- Temperatures pushed to `sunTemps` by the aggregation loop, in order. -/
def sunTempsOf (obs : List HourlyObs) (s : SunTimes) : List ℚ :=
  (obs.filter (fun h => dayBucketPred s h)).map HourlyObs.temp

/-- Temperatures pushed to `nightTemps` by the aggregation loop, in order. -/
def nightTempsOf (obs : List HourlyObs) (s : SunTimes) : List ℚ :=
  (obs.filter (fun h => !dayBucketPred s h)).map HourlyObs.temp

/-- The temperature fields of one `DailyMetrics` row. -/
structure DayAgg where
  Tmin : JsNum
  Tmax : JsNum
  sunTmean : JsNum
  nightTmean : JsNum
deriving DecidableEq

/-- Temperature aggregation of one calendar day in the weather-forecast
function (supabase/functions/weather-forecast/index.ts, lines 152-193):
`Tmin`/`Tmax` are `Math.min`/`Math.max` over the day's hourly temperatures
(infinite when the day has no observations), and the day/night means are
`reduce((a, b) => a + b, 0) / length` with fallback to `Tmax` / `Tmin`
when a bucket is empty. -/
def aggregateDay (obs : List HourlyObs) (s : SunTimes) : DayAgg :=
  let temps := obs.map HourlyObs.temp
  let tmin := jsMinList temps
  let tmax := jsMaxList temps
  let sT := sunTempsOf obs s
  let nT := nightTempsOf obs s
  { Tmin := tmin,
    Tmax := tmax,
    sunTmean :=
      if 0 < sT.length then JsNum.val ((sT.foldl (· + ·) 0) / (sT.length : ℚ)) else tmax,
    nightTmean :=
      if 0 < nT.length then JsNum.val ((nT.foldl (· + ·) 0) / (nT.length : ℚ)) else tmin }

/-- The per-day metrics consumed by the window averaging of the
weather-forecast function (only the fields that feed the transformed
response are modelled). -/
structure DayRow where
  Tmin : ℚ
  Tmax : ℚ
  precipitation_sum : ℚ
  wind_speed_10m_mean : ℚ
deriving DecidableEq

/-- Precipitation probability of the weather-forecast function:
`Math.min(100, Math.round(daysWithRain / n * 100))` where a day counts as
rainy when its precipitation sum exceeds 0.1. -/
def precipProbOf (l : List ℚ) : ℚ :=
  min 100 ((jsRound (((l.countP (fun p => decide ((0.1 : ℚ) < p))) : ℚ) / (l.length : ℚ) * 100) : ℤ) : ℚ)

/-- Temperature block of the weather-forecast response. -/
structure FTemp where
  mean : ℚ
  min : ℚ
  max : ℚ
  unit : String
  confidence : ℚ
deriving DecidableEq

/-- Precipitation block of the weather-forecast response. -/
structure FPrecip where
  probability : ℚ
  amount : ℚ
  unit : String
  confidence : ℚ
deriving DecidableEq

/-- Wind block of the weather-forecast response (it has no `gusts` field). -/
structure FWind where
  speed : ℚ
  unit : String
deriving DecidableEq

/-- The `forecast` object of the weather-forecast response, restricted to the
fields the Results page transformation reads. -/
structure ForecastResponse where
  temperature : FTemp
  precipitation : FPrecip
  wind : FWind
deriving DecidableEq

/-- Window averaging and response formatting of the weather-forecast function
(lines 210-290): every average is over the day rows of the window, rounded
to one decimal; the confidences are the fixed constants 0.85 and 0.75. -/
def buildForecast (u : UnitsSys) (days : List DayRow) : ForecastResponse :=
  let n : ℚ := (days.length : ℚ)
  { temperature :=
      { mean := round1 ((days.map (fun d => (d.Tmin + d.Tmax) / 2)).sum / n),
        min := round1 ((days.map DayRow.Tmin).sum / n),
        max := round1 ((days.map DayRow.Tmax).sum / n),
        unit := if u = UnitsSys.metric then "°C" else "°F",
        confidence := 0.85 },
    precipitation :=
      { probability := precipProbOf (days.map DayRow.precipitation_sum),
        amount := round1 ((days.map DayRow.precipitation_sum).sum / n),
        unit := if u = UnitsSys.metric then "mm" else "inch",
        confidence := 0.75 },
    wind :=
      { speed := round1 ((days.map DayRow.wind_speed_10m_mean).sum / n),
        unit := if u = UnitsSys.metric then "km/h" else "mph" } }

/-- Input guard of the weather-forecast serve handler:
`if (!lat || !lon || !date)` returns a 400 error. -/
def weatherForecastParamCheck (lat lon : ℚ) (date : String) : Except String Unit :=
  if !jsTruthyNum lat || !jsTruthyNum lon || !jsTruthyStr date then
    Except.error "Missing required parameters: lat, lon, date"
  else Except.ok ()

/-- Fetch guard of the Results page: `if (lat && lon && date)` fetches,
otherwise the page shows the "Missing required parameters" error. -/
def resultsFetchGuard (lat lon : ℚ) (date : String) : Bool :=
  jsTruthyNum lat && jsTruthyNum lon && jsTruthyStr date

/-- One `risk_labels` entry built by the Results page transformation; its
`rule_applied` explanatory string (an interpolation of upstream text) is
not modelled. -/
structure RiskLabelRow where
  risk_type : String
  level : String
  probability_percent : ℚ
deriving DecidableEq

/-- The five `summary` rows synthesised by the Results page from the
weather-forecast response (Results page, transformedData.summary).  The
wind row's p90 uses `wind?.gusts || speed * 1.5`; the forecast response
carries no `gusts` field, so the fallback always applies. -/
def transformSummary (f : ForecastResponse) : List SummaryRow :=
  [ ⟨"t_mean", f.temperature.unit, f.temperature.mean, 2.5,
     f.temperature.min,
     (f.temperature.min + f.temperature.mean) / 2,
     f.temperature.mean,
     (f.temperature.mean + f.temperature.max) / 2,
     f.temperature.max⟩,
    ⟨"t_min", f.temperature.unit, f.temperature.min, 1.5,
     f.temperature.min - 3, f.temperature.min - 1, f.temperature.min,
     f.temperature.min + 1, f.temperature.min + 2⟩,
    ⟨"t_max", f.temperature.unit, f.temperature.max, 1.8,
     f.temperature.max - 2, f.temperature.max - 1, f.temperature.max,
     f.temperature.max + 1, f.temperature.max + 3⟩,
    ⟨"precip_mm", f.precipitation.unit, f.precipitation.amount,
     f.precipitation.amount * 0.4, f.precipitation.amount * 0.3,
     f.precipitation.amount * 0.5, f.precipitation.amount,
     f.precipitation.amount * 1.2, f.precipitation.amount * 1.5⟩,
    ⟨"wind10m", f.wind.unit, f.wind.speed, f.wind.speed * 0.3,
     f.wind.speed * 0.6, f.wind.speed * 0.8, f.wind.speed,
     f.wind.speed * 1.2, f.wind.speed * 1.5⟩ ]

/-- The two `probabilities` rows synthesised by the Results page; note the
first multiplies `precipitation.probability` (already a 0-100 percentage)
by 100. -/
def transformProbabilities (f : ForecastResponse) : List ProbRow :=
  [ ⟨"precip_mm", 1, ">=", f.precipitation.probability * 100⟩,
    ⟨"t_mean", 30, ">", if f.temperature.mean > 30 then 70 else 20⟩ ]

/-- The two `risk_labels` entries synthesised by the Results page: a
temperature label whose probability clamps `confidence * 100` into
`[60, 95]`, and a `very_wet` label whose probability clamps
`precipitation.probability * 100` into `[55, 90]`. -/
def transformRiskLabels (f : ForecastResponse) : List RiskLabelRow :=
  [ { risk_type :=
        if f.temperature.mean > 32 then "very_hot"
        else if f.temperature.mean < 3 then "very_cold"
        else "very_uncomfortable",
      level :=
        if f.temperature.mean > 35 ∨ f.temperature.mean < 0 then "high"
        else if f.temperature.mean > 30 ∨ f.temperature.mean < 5 then "medium"
        else "low",
      probability_percent := min 95 (max 60 (f.temperature.confidence * 100)) },
    { risk_type := "very_wet",
      level :=
        if f.precipitation.amount > 25 then "high"
        else if f.precipitation.amount > 10 then "medium"
        else "low",
      probability_percent := min 90 (max 55 (f.precipitation.probability * 100)) } ]

/-- A calendar date, as manipulated by the historical serve handler through
JavaScript `Date` objects (month is 1-12 here; `Date` comparisons order by
timestamp, which for valid dates is the lexicographic year/month/day
order). -/
structure YMD where
  year : ℕ
  month : ℕ
  day : ℕ
deriving DecidableEq

/-- Timestamp comparison `a < b` of two dates. -/
def dateLtB (a b : YMD) : Bool :=
  a.year < b.year ||
  (a.year == b.year && (a.month < b.month || (a.month == b.month && a.day < b.day)))

/-- Archive lower bound of the historical handler: `new Date('2016-01-01')`. -/
def minAllowedDate : YMD := ⟨2016, 1, 1⟩

/-- Archive upper bound of the historical handler: `new Date('2025-10-20')`. -/
def maxAllowedDate : YMD := ⟨2025, 10, 20⟩

/-- JavaScript `setFullYear(getFullYear() - 1)`: the month and day are kept,
except that an out-of-range day (Feb 29 landing in a non-leap year) rolls
over into the next month. -/
def subYearJS (d : YMD) : YMD :=
  let y := d.year - 1
  if d.day ≤ daysInMonth y d.month then ⟨y, d.month, d.day⟩
  else ⟨y, d.month + 1, d.day - daysInMonth y d.month⟩

/-- The `while (historicalDate > maxAllowedDate)` loop of the historical
handler, stepping back one year at a time; the fuel argument is an upper
bound on the number of iterations (the target's year always suffices). -/
def backWhile : ℕ → YMD → YMD
  | 0, d => d
  | n + 1, d => if dateLtB maxAllowedDate d then backWhile n (subYearJS d) else d

/-- Historical anchor date selection of the historical serve handler
(lines 402-420 of the second handler): one year back, further back while
still beyond the archive's upper bound, and, if the result precedes the
archive's lower bound, the lower bound's year with the target's month and
day restored (`setMonth`/`setDate`). -/
def histDate (t : YMD) : YMD :=
  let h := backWhile t.year (subYearJS t)
  if dateLtB h minAllowedDate then ⟨minAllowedDate.year, t.month, t.day⟩ else h

/-- Successor day in the Gregorian calendar. -/
def nextDay (d : YMD) : YMD :=
  if d.day < daysInMonth d.year d.month then ⟨d.year, d.month, d.day + 1⟩
  else if d.month < 12 then ⟨d.year, d.month + 1, 1⟩
  else ⟨d.year + 1, 1, 1⟩

/-- Predecessor day in the Gregorian calendar. -/
def prevDay (d : YMD) : YMD :=
  if 1 < d.day then ⟨d.year, d.month, d.day - 1⟩
  else if 1 < d.month then ⟨d.year, d.month - 1, daysInMonth d.year (d.month - 1)⟩
  else ⟨d.year - 1, 12, 31⟩

/-- JavaScript `setDate(getDate() + n)` day arithmetic. -/
def addDays : YMD → ℕ → YMD
  | d, 0 => d
  | d, n + 1 => addDays (nextDay d) n

/-- JavaScript `setDate(getDate() - n)` day arithmetic. -/
def subDays : YMD → ℕ → YMD
  | d, 0 => d
  | d, n + 1 => subDays (prevDay d) n

/-- Sampling-window selection of the historical serve handler (lines
422-434): `±Math.floor(window / 2)` days around the historical anchor,
then each edge that leaves the archive's valid range is replaced by the
boundary date itself (`setTime(minAllowedDate)` / `setTime(maxAllowedDate)`). -/
def selectWindow (t : YMD) (w : ℕ) : YMD × YMD :=
  let h := histDate t
  let s0 := subDays h (w / 2)
  let e0 := addDays h (w / 2)
  (if dateLtB s0 minAllowedDate then minAllowedDate else s0,
   if dateLtB maxAllowedDate e0 then maxAllowedDate else e0)

/-- Minimum temperature of a nonempty observation list, as the spec reads it
(the fold JavaScript `Math.min` performs over the spread temperatures). -/
def dayTempMin : List HourlyObs → ℚ
  | [] => 0
  | a :: l => (l.map HourlyObs.temp).foldl min a.temp

/-- Maximum temperature of a nonempty observation list. -/
def dayTempMax : List HourlyObs → ℚ
  | [] => 0
  | a :: l => (l.map HourlyObs.temp).foldl max a.temp

/-- Folding addition from an accumulator equals the accumulator plus the sum. -/
theorem foldl_add_eq_sum (l : List ℚ) (a : ℚ) : l.foldl (· + ·) a = a + l.sum := by
  induction l generalizing a with
  | nil => simp
  | cons x xs ih => simp [List.foldl_cons, ih, List.sum_cons]; ring

/-- A filter and its negation partition a list. -/
theorem length_filter_add_length_filter_not (p : α → Bool) (l : List α) :
    (l.filter p).length + (l.filter (fun x => !p x)).length = l.length := by
  induction l with
  | nil => rfl
  | cons a l ih =>
    cases hpa : p a <;> simp [List.filter_cons, hpa] <;> omega

/-- The non-leap month length is a lower bound for any year's month length. -/
theorem daysInMonthNL_le (y m : ℕ) : daysInMonthNL m ≤ daysInMonth y m := by
  unfold daysInMonth
  split_ifs with h1 h2
  · subst h1; decide
  · subst h1; decide
  · exact le_rfl

/-- JavaScript `setFullYear(year - 1)` keeps the month and day whenever the
day fits in every year's version of the month (any day except Feb 29). -/
theorem subYearJS_md (d : YMD) (h : d.day ≤ daysInMonthNL d.month) :
    subYearJS d = ⟨d.year - 1, d.month, d.day⟩ := by
  unfold subYearJS
  rw [if_pos (le_trans h (daysInMonthNL_le _ _))]

/-- The year-stepping loop keeps the month and day (for non-Feb-29 dates). -/
theorem backWhile_md (n : ℕ) : ∀ d : YMD, d.day ≤ daysInMonthNL d.month →
    (backWhile n d).month = d.month ∧ (backWhile n d).day = d.day := by
  induction n with
  | zero => intro d _; exact ⟨rfl, rfl⟩
  | succ n ih =>
    intro d h
    unfold backWhile
    split
    · rw [subYearJS_md d h]
      exact ih ⟨d.year - 1, d.month, d.day⟩ h
    · exact ⟨rfl, rfl⟩

/-- The computed precipitation probability lies in [0, 100] whenever the
window is nonempty. -/
theorem precipProbOf_bounds (l : List ℚ) (h : l ≠ []) :
    0 ≤ precipProbOf l ∧ precipProbOf l ≤ 100 := by
  have hn : (0 : ℚ) < (l.length : ℚ) := by
    exact_mod_cast List.length_pos.mpr h
  have hq : (0 : ℚ) ≤ ((l.countP (fun p => decide ((0.1 : ℚ) < p))) : ℚ) / (l.length : ℚ) * 100 := by
    positivity
  constructor
  · refine le_min (by norm_num) ?_
    have : (0 : ℤ) ≤ jsRound (((l.countP (fun p => decide ((0.1 : ℚ) < p))) : ℚ) / (l.length : ℚ) * 100) := by
      rw [jsRound]
      exact Int.le_floor.mpr (by push_cast; linarith)
    exact_mod_cast this
  · exact min_le_left _ _

/-- Projection lemma: `Tmin` of a day aggregation. -/
theorem aggregateDay_Tmin (obs : List HourlyObs) (s : SunTimes) :
    (aggregateDay obs s).Tmin = jsMinList (obs.map HourlyObs.temp) := rfl

/-- Projection lemma: `Tmax` of a day aggregation. -/
theorem aggregateDay_Tmax (obs : List HourlyObs) (s : SunTimes) :
    (aggregateDay obs s).Tmax = jsMaxList (obs.map HourlyObs.temp) := rfl

/-- Projection lemma: day-bucket mean of a day aggregation. -/
theorem aggregateDay_sunTmean (obs : List HourlyObs) (s : SunTimes) :
    (aggregateDay obs s).sunTmean =
      (if 0 < (sunTempsOf obs s).length then
        JsNum.val (((sunTempsOf obs s).foldl (· + ·) 0) / ((sunTempsOf obs s).length : ℚ))
      else jsMaxList (obs.map HourlyObs.temp)) := rfl

/-- Projection lemma: night-bucket mean of a day aggregation. -/
theorem aggregateDay_nightTmean (obs : List HourlyObs) (s : SunTimes) :
    (aggregateDay obs s).nightTmean =
      (if 0 < (nightTempsOf obs s).length then
        JsNum.val (((nightTempsOf obs s).foldl (· + ·) 0) / ((nightTempsOf obs s).length : ℚ))
      else jsMinList (obs.map HourlyObs.temp)) := rfl

/-- C3 counterexample: for a day with an empty observation set the
aggregation does not fail; it returns `tempMin = Infinity` and
`tempMax = -Infinity` (JavaScript `Math.min`/`Math.max` of an empty
spread), contradicting the claim that such a day fails with
`InsufficientData` and never yields infinite values. -/
theorem C3_counterexample :
    (aggregateDay [] ⟨6, 18⟩).Tmin = JsNum.posInf ∧
    (aggregateDay [] ⟨6, 18⟩).Tmax = JsNum.negInf := ⟨rfl, rfl⟩

/-- C3 (amended): for every calendar day whose observation set is empty, the
daily aggregation raises no error and fabricates infinite metrics:
`tempMin = Infinity`, `tempMax = -Infinity`, and the day/night means fall
back to those infinities. -/
theorem C3_empty_day (s : SunTimes) :
    aggregateDay [] s = ⟨JsNum.posInf, JsNum.negInf, JsNum.negInf, JsNum.posInf⟩ := rfl

/-- C9: `getOutlook` is deterministic in its request parameters: two calls at
different ambient times `now1`, `now2` (the only environmental input, used
solely for the simulated delay) with the same latitude, longitude, scenario
hash, date, day-of-year, window and units produce identical responses —
including `summary` and `risk_labels` — and the response embeds no
`generatedAt` timestamp. -/
theorem C9_deterministic :
    ∀ (now1 now2 : ℕ) (lat lon h : ℚ) (date : String) (doy : ℕ)
      (window : ℚ) (u : UnitsSys),
      getOutlook now1 lat lon h date doy window u
        = getOutlook now2 lat lon h date doy window u :=
  fun _ _ _ _ _ _ _ _ _ => rfl

/-- C10: a request with `lat = 0` or `lon = 0` is rejected by the
weather-forecast endpoint's truthiness guard with the
"Missing required parameters" error, and likewise blocked by the Results
page fetch guard, while the `handleOutlookRequest` validators accept 0 as
in-range for both coordinates. -/
theorem C10_zero_coordinates :
    ∀ (lat lon : ℚ) (date : String),
      weatherForecastParamCheck 0 lon date
          = Except.error "Missing required parameters: lat, lon, date" ∧
      weatherForecastParamCheck lat 0 date
          = Except.error "Missing required parameters: lat, lon, date" ∧
      resultsFetchGuard 0 lon date = false ∧
      resultsFetchGuard lat 0 date = false ∧
      validateLat 0 = true ∧ validateLon 0 = true := by
  intro lat lon date
  refine ⟨?_, ?_, ?_, ?_, by decide, by decide⟩ <;>
    simp [weatherForecastParamCheck, resultsFetchGuard, jsTruthyNum]

/-- C4: for every day with at least one observation, the aggregation puts an
observation in the day bucket exactly when its fractional hour lies in
`[sunriseHour, sunsetHour)` (the bucket count matches that criterion and the
two buckets partition the day), `tempMin`/`tempMax` are finite, the day-bucket
mean is the arithmetic mean of the day-bucket temperatures with fallback to
`tempMax` when that bucket is empty, and symmetrically for the night bucket
with fallback to `tempMin` — no error and no NaN. -/
theorem C4_day_night_buckets (obs : List HourlyObs) (s : SunTimes) (hne : obs ≠ []) :
    obs.countP (fun h => decide (s.sunriseHour ≤ h.hour ∧ h.hour < s.sunsetHour))
        = (sunTempsOf obs s).length ∧
    (sunTempsOf obs s).length + (nightTempsOf obs s).length = obs.length ∧
    (aggregateDay obs s).Tmin = JsNum.val (dayTempMin obs) ∧
    (aggregateDay obs s).Tmax = JsNum.val (dayTempMax obs) ∧
    (aggregateDay obs s).sunTmean =
      JsNum.val (if sunTempsOf obs s = [] then dayTempMax obs
                 else arithMean (sunTempsOf obs s)) ∧
    (aggregateDay obs s).nightTmean =
      JsNum.val (if nightTempsOf obs s = [] then dayTempMin obs
                 else arithMean (nightTempsOf obs s)) := by
  have hpred : (fun h : HourlyObs =>
      decide (s.sunriseHour ≤ h.hour ∧ h.hour < s.sunsetHour))
      = fun h => dayBucketPred s h := by
    funext x
    by_cases h1 : s.sunriseHour ≤ x.hour <;> by_cases h2 : x.hour < s.sunsetHour <;>
      simp [dayBucketPred, h1, h2]
  refine ⟨?_, ?_, ?_, ?_, ?_, ?_⟩
  · rw [List.countP_eq_length_filter, sunTempsOf, List.length_map, hpred]
  · rw [sunTempsOf, nightTempsOf, List.length_map, List.length_map]
    exact length_filter_add_length_filter_not _ _
  · cases obs with
    | nil => exact absurd rfl hne
    | cons a l => rfl
  · cases obs with
    | nil => exact absurd rfl hne
    | cons a l => rfl
  · rw [aggregateDay_sunTmean]
    rcases hsT : sunTempsOf obs s with _ | ⟨x, xs⟩
    · rw [if_neg (by simp), if_pos rfl]
      cases obs with
      | nil => exact absurd rfl hne
      | cons a l => rfl
    · rw [if_pos (by simp), if_neg (by simp)]
      rw [foldl_add_eq_sum, zero_add, arithMean]
  · rw [aggregateDay_nightTmean]
    rcases hnT : nightTempsOf obs s with _ | ⟨x, xs⟩
    · rw [if_neg (by simp), if_pos rfl]
      cases obs with
      | nil => exact absurd rfl hne
      | cons a l => rfl
    · rw [if_pos (by simp), if_neg (by simp)]
      rw [foldl_add_eq_sum, zero_add, arithMean]

/-- C4 witness: the theorem applied to a concrete two-observation day
(observations at 05:00 and 12:00, sun window 06:00-18:00). -/
theorem C4_witness :
    ([⟨5, 10⟩, ⟨12, 20⟩] : List HourlyObs) ≠ [] ∧
    (([⟨5, 10⟩, ⟨12, 20⟩] : List HourlyObs).countP
        (fun h => decide ((6 : ℚ) ≤ h.hour ∧ h.hour < (18 : ℚ)))
        = (sunTempsOf [⟨5, 10⟩, ⟨12, 20⟩] ⟨6, 18⟩).length ∧
     (sunTempsOf [⟨5, 10⟩, ⟨12, 20⟩] ⟨6, 18⟩).length
        + (nightTempsOf [⟨5, 10⟩, ⟨12, 20⟩] ⟨6, 18⟩).length
        = ([⟨5, 10⟩, ⟨12, 20⟩] : List HourlyObs).length ∧
     (aggregateDay [⟨5, 10⟩, ⟨12, 20⟩] ⟨6, 18⟩).Tmin
        = JsNum.val (dayTempMin [⟨5, 10⟩, ⟨12, 20⟩]) ∧
     (aggregateDay [⟨5, 10⟩, ⟨12, 20⟩] ⟨6, 18⟩).Tmax
        = JsNum.val (dayTempMax [⟨5, 10⟩, ⟨12, 20⟩]) ∧
     (aggregateDay [⟨5, 10⟩, ⟨12, 20⟩] ⟨6, 18⟩).sunTmean
        = JsNum.val (if sunTempsOf [⟨5, 10⟩, ⟨12, 20⟩] ⟨6, 18⟩ = []
                     then dayTempMax [⟨5, 10⟩, ⟨12, 20⟩]
                     else arithMean (sunTempsOf [⟨5, 10⟩, ⟨12, 20⟩] ⟨6, 18⟩)) ∧
     (aggregateDay [⟨5, 10⟩, ⟨12, 20⟩] ⟨6, 18⟩).nightTmean
        = JsNum.val (if nightTempsOf [⟨5, 10⟩, ⟨12, 20⟩] ⟨6, 18⟩ = []
                     then dayTempMin [⟨5, 10⟩, ⟨12, 20⟩]
                     else arithMean (nightTempsOf [⟨5, 10⟩, ⟨12, 20⟩] ⟨6, 18⟩))) :=
  ⟨by decide, C4_day_night_buckets [⟨5, 10⟩, ⟨12, 20⟩] ⟨6, 18⟩ (by decide)⟩

/-- C5 counterexample: a request with `windowDays = 0` (and otherwise valid
parameters) is not rejected: because `0` is falsy, `params.window &&
!validateWindow(params.window)` skips the check and `params.window || 15`
silently substitutes the default window of 15 days. -/
theorem C5_counterexample :
    handleOutlookRequest ⟨40, 0, "2024-06-01", some 0, none⟩
      = Except.ok ⟨40, 0, "2024-06-01", 15, "metric"⟩ := by rfl

/-- C5 (amended): `handleOutlookRequest` raises `InvalidParameter` for every
request whose provided `windowDays` is truthy (nonzero) and outside the
configured bounds `[7, 30]` — in particular `windowDays = 45` — but a
request with `windowDays = 0` bypasses the window validation entirely (0 is
falsy) and proceeds with the default window of 15 days instead. -/
theorem C5_window_validation :
    (∀ (p : OutlookReq) (w : ℚ), p.window = some w → w ≠ 0 →
        ¬(7 ≤ w ∧ w ≤ 30) →
        validateLat p.lat = true → validateLon p.lon = true →
        validateDate p.date = true →
        handleOutlookRequest p
          = Except.error (ApiErr.invalidParam "Window must be between 7 and 30 days.")) ∧
    (∀ p : OutlookReq, p.window = some 0 → p.units = none →
        validateLat p.lat = true → validateLon p.lon = true →
        validateDate p.date = true →
        handleOutlookRequest p = Except.ok ⟨p.lat, p.lon, p.date, 15, "metric"⟩) := by
  constructor
  · intro p w hw h0 hr hlat hlon hdate
    simp [handleOutlookRequest, hlat, hlon, hdate, hw, optTruthyQ, validateWindow, h0, hr]
  · intro p hw hu hlat hlon hdate
    simp [handleOutlookRequest, hlat, hlon, hdate, hw, hu, optTruthyQ, optTruthyS,
      jsOrQ, jsOrS]

/-- C5 witness: the theorem applied at `windowDays = 45` (rejected) and
`windowDays = 0` (silently defaulted), with all side conditions checked
concretely. -/
theorem C5_witness :
    ((45 : ℚ) ≠ 0 ∧ ¬((7 : ℚ) ≤ 45 ∧ (45 : ℚ) ≤ 30) ∧
      handleOutlookRequest ⟨40, 0, "2024-06-01", some 45, none⟩
        = Except.error (ApiErr.invalidParam "Window must be between 7 and 30 days.")) ∧
    (handleOutlookRequest ⟨40, 0, "2024-06-01", some 0, none⟩
        = Except.ok ⟨40, 0, "2024-06-01", 15, "metric"⟩) :=
  ⟨⟨by decide, by decide,
    C5_window_validation.1 ⟨40, 0, "2024-06-01", some 45, none⟩ 45 rfl
      (by decide) (by decide) (by decide) (by decide) (by decide)⟩,
   C5_window_validation.2 ⟨40, 0, "2024-06-01", some 0, none⟩ rfl rfl
      (by decide) (by decide) (by decide)⟩

/-- C1 counterexample: at hash value 0 (reached for example at `lat = 0`,
a coordinate the validators accept) the metric `getOutlook` summary violates
percentile monotonicity: its `precip_mm` row has `p25 = 0.01 > p50 = 0`. -/
theorem C1_counterexample :
    summaryInvariantOk (getOutlookSummary 0 UnitsSys.metric) = false := by
  norm_num [summaryInvariantOk, getOutlookSummary, generateScenario, hotDesert,
    summaryRows, chainOk, List.all_cons]

/-- C1 (amended): every `getOutlook` summary row has `std ≥ 0`, and every row
except the `precip_mm` row satisfies `p10 ≤ p25 ≤ p50 ≤ p75 ≤ p90` (the
`precip_mm` row can violate the chain, e.g. `p25 > p50` in the hot-desert
scenario and `p50 > p75` in the monsoon scenario); the Results-page summary
rows all satisfy both invariants provided the upstream forecast response has
a nonnegative precipitation amount and wind speed and
`temperature.min ≤ temperature.mean ≤ temperature.max`. -/
theorem C1_percentile_monotonicity :
    (∀ (h : ℚ) (u : UnitsSys),
        summaryExceptPrecipOk (getOutlookSummary h u) = true) ∧
    (∀ f : ForecastResponse,
        0 ≤ f.precipitation.amount → 0 ≤ f.wind.speed →
        f.temperature.min ≤ f.temperature.mean →
        f.temperature.mean ≤ f.temperature.max →
        summaryInvariantOk (transformSummary f) = true) := by
  constructor
  · intro h u
    unfold getOutlookSummary generateScenario
    split_ifs <;> cases u <;>
      (simp [summaryExceptPrecipOk, hotDesert, coldWinter, monsoon, moderate,
        summaryRows, chainOk, List.all_cons]; try norm_num)
  · intro f hamt hspd hmin hmax
    simp only [summaryInvariantOk, transformSummary, chainOk, List.all_cons,
      List.all_nil, Bool.and_eq_true, Bool.and_true, decide_eq_true_eq]
    repeat' apply And.intro
    all_goals linarith

/-- C1 witness: the Results-page part of the theorem applied to a concrete
forecast response with ordered temperatures and nonnegative precipitation
and wind. -/
theorem C1_witness :
    (0 : ℚ) ≤ ((⟨⟨20, 15, 25, "°C", 0.85⟩, ⟨40, 5, "mm", 0.75⟩,
        ⟨10, "km/h"⟩⟩ : ForecastResponse)).precipitation.amount ∧
    (0 : ℚ) ≤ ((⟨⟨20, 15, 25, "°C", 0.85⟩, ⟨40, 5, "mm", 0.75⟩,
        ⟨10, "km/h"⟩⟩ : ForecastResponse)).wind.speed ∧
    ((⟨⟨20, 15, 25, "°C", 0.85⟩, ⟨40, 5, "mm", 0.75⟩,
        ⟨10, "km/h"⟩⟩ : ForecastResponse)).temperature.min
      ≤ ((⟨⟨20, 15, 25, "°C", 0.85⟩, ⟨40, 5, "mm", 0.75⟩,
        ⟨10, "km/h"⟩⟩ : ForecastResponse)).temperature.mean ∧
    ((⟨⟨20, 15, 25, "°C", 0.85⟩, ⟨40, 5, "mm", 0.75⟩,
        ⟨10, "km/h"⟩⟩ : ForecastResponse)).temperature.mean
      ≤ ((⟨⟨20, 15, 25, "°C", 0.85⟩, ⟨40, 5, "mm", 0.75⟩,
        ⟨10, "km/h"⟩⟩ : ForecastResponse)).temperature.max ∧
    summaryInvariantOk (transformSummary ⟨⟨20, 15, 25, "°C", 0.85⟩,
        ⟨40, 5, "mm", 0.75⟩, ⟨10, "km/h"⟩⟩) = true :=
  ⟨by decide, by decide, by decide, by decide,
   C1_percentile_monotonicity.2 _ (by decide) (by decide) (by decide) (by decide)⟩

/-- C2 counterexample: one upstream day with 5 mm of rain makes
`precipProb = 100`, and the Results-page transformation reports
`probability_percent = precipProb * 100 = 10000` for the precipitation
exceedance row — far outside [0, 100]. -/
theorem C2_counterexample :
    (transformProbabilities (buildForecast UnitsSys.metric [⟨20, 30, 5, 10⟩])).all
      (fun p => percentInRange p.probability_percent) = false := by
  have h5 : precipProbOf [(5 : ℚ)] = 100 := by
    rw [precipProbOf, List.countP_cons, List.countP_nil,
      if_pos (decide_eq_true (by norm_num : (0.1 : ℚ) < 5))]
    norm_num [jsRound]
  simp only [transformProbabilities, buildForecast, List.map_cons, List.map_nil, h5,
    List.all_cons, percentInRange]
  norm_num

/-- C2 (amended): in the Results-page transformation, every
`probability_percent` other than the precipitation exceedance row lies in
[0, 100] — the second probabilities row is 70 or 20 and both risk-label
probabilities are clamped into [60, 95] and [55, 90] respectively — but the
precipitation exceedance row equals `precipProb * 100`, where `precipProb`
is itself a 0-100 percentage, so that row ranges over [0, 10000] and
exceeds 100 whenever `precipProb > 1`. -/
theorem C2_probability_bounds (u : UnitsSys) (days : List DayRow) (hne : days ≠ []) :
    ((transformProbabilities (buildForecast u days)).tail.all
        (fun p => percentInRange p.probability_percent) = true) ∧
    ((transformRiskLabels (buildForecast u days)).all
        (fun r => percentInRange r.probability_percent) = true) ∧
    ((transformProbabilities (buildForecast u days)).head?.map ProbRow.probability_percent
        = some (precipProbOf (days.map DayRow.precipitation_sum) * 100)) ∧
    0 ≤ precipProbOf (days.map DayRow.precipitation_sum) ∧
    precipProbOf (days.map DayRow.precipitation_sum) ≤ 100 := by
  have hmapne : days.map DayRow.precipitation_sum ≠ [] := by
    intro hmap
    exact hne (List.map_eq_nil_iff.mp hmap)
  obtain ⟨hp0, hp100⟩ := precipProbOf_bounds _ hmapne
  refine ⟨?_, ?_, rfl, hp0, hp100⟩
  · simp only [transformProbabilities, List.tail_cons, List.all_cons, List.all_nil,
      Bool.and_true, percentInRange]
    split_ifs <;> decide
  · simp only [transformRiskLabels, buildForecast, List.all_cons, List.all_nil,
      Bool.and_true, Bool.and_eq_true, percentInRange, decide_eq_true_eq]
    refine ⟨⟨?_, ?_⟩, ?_, ?_⟩
    · norm_num [min_def, max_def]
    · norm_num [min_def, max_def]
    · exact le_min (by norm_num) (le_trans (by norm_num) (le_max_left _ _))
    · exact le_trans (min_le_left _ _) (by norm_num)

/-- C2 witness: the theorem applied to a concrete one-day window. -/
theorem C2_witness :
    ([⟨20, 30, 0, 10⟩] : List DayRow) ≠ [] ∧
    (((transformProbabilities (buildForecast UnitsSys.metric [⟨20, 30, 0, 10⟩])).tail.all
        (fun p => percentInRange p.probability_percent) = true) ∧
     ((transformRiskLabels (buildForecast UnitsSys.metric [⟨20, 30, 0, 10⟩])).all
        (fun r => percentInRange r.probability_percent) = true) ∧
     ((transformProbabilities (buildForecast UnitsSys.metric [⟨20, 30, 0, 10⟩])).head?.map
          ProbRow.probability_percent
        = some (precipProbOf (([⟨20, 30, 0, 10⟩] : List DayRow).map
            DayRow.precipitation_sum) * 100)) ∧
     0 ≤ precipProbOf (([⟨20, 30, 0, 10⟩] : List DayRow).map DayRow.precipitation_sum) ∧
     precipProbOf (([⟨20, 30, 0, 10⟩] : List DayRow).map DayRow.precipitation_sum) ≤ 100) :=
  ⟨by simp, C2_probability_bounds UnitsSys.metric [⟨20, 30, 0, 10⟩] (by simp)⟩

/-- C6 counterexample: two upstream snapshots with entirely different sampled
data (a hot dry window and a freezing wet window) both produce a temperature
risk label with `probability_percent = 85` — the clamp of the fixed
confidence constant 0.85 — demonstrating a probability independent of the
empirical exceedance of the sampled window. -/
theorem C6_counterexample :
    ((transformRiskLabels (buildForecast UnitsSys.metric [⟨35, 45, 0, 5⟩])).head?.map
        RiskLabelRow.probability_percent = some 85) ∧
    ((transformRiskLabels (buildForecast UnitsSys.metric [⟨-10, 0, 20, 5⟩])).head?.map
        RiskLabelRow.probability_percent = some 85) ∧
    buildForecast UnitsSys.metric [⟨35, 45, 0, 5⟩]
      ≠ buildForecast UnitsSys.metric [⟨-10, 0, 20, 5⟩] := by
  refine ⟨?_, ?_, ?_⟩
  · simp only [transformRiskLabels, buildForecast, List.head?_cons, Option.map_some',
      Option.some.injEq]
    norm_num [min_def, max_def]
  · simp only [transformRiskLabels, buildForecast, List.head?_cons, Option.map_some',
      Option.some.injEq]
    norm_num [min_def, max_def]
  · intro hEq
    have hmean := congrArg (fun f => f.temperature.mean) hEq
    simp only [buildForecast, List.map_cons, List.map_nil, List.sum_cons,
      List.sum_nil, List.length_cons, List.length_nil] at hmean
    norm_num [round1, jsRound] at hmean

/-- C6 (amended): for every upstream window, the Results-page temperature
risk label carries the fixed probability 85 (the clamp of the constant
confidence 0.85), independent of the sampled data; only the `very_wet`
label's probability is derived from the empirical precipitation exceedance
`precipProb`, clamped into [55, 90]. -/
theorem C6_fixed_confidence (u : UnitsSys) (days : List DayRow) (_hne : days ≠ []) :
    (transformRiskLabels (buildForecast u days)).map RiskLabelRow.probability_percent
      = [85, min 90 (max 55 (precipProbOf (days.map DayRow.precipitation_sum) * 100))] := by
  simp only [transformRiskLabels, buildForecast, List.map_cons, List.map_nil]
  norm_num [min_def, max_def]

/-- C6 witness: the theorem applied to a concrete one-day window. -/
theorem C6_witness :
    ([⟨35, 45, 0, 5⟩] : List DayRow) ≠ [] ∧
    (transformRiskLabels (buildForecast UnitsSys.metric [⟨35, 45, 0, 5⟩])).map
        RiskLabelRow.probability_percent
      = [85, min 90 (max 55 (precipProbOf (([⟨35, 45, 0, 5⟩] : List DayRow).map
          DayRow.precipitation_sum) * 100))] :=
  ⟨by simp, C6_fixed_confidence UnitsSys.metric [⟨35, 45, 0, 5⟩] (by simp)⟩

/-- C7 counterexample: at hash value 0.7 the monsoon scenario emits its risk
labels as (very_wet, very_windy), violating the canonical order
very_hot, very_cold, very_windy, very_wet, very_uncomfortable. -/
theorem C7_counterexample :
    nondecreasing ((getOutlookRiskLabels 0.7 UnitsSys.metric).map
      (fun r => canonicalIdx r.risk_type)) = false := by
  have hsc : generateScenario 0.7 UnitsSys.metric = monsoon UnitsSys.metric := by
    rw [generateScenario, if_neg (by norm_num), if_neg (by norm_num), if_pos (by norm_num)]
  rw [getOutlookRiskLabels, hsc]
  decide

/-- C7 (amended): the risk labels of `getOutlook` are a deterministic
function of the inputs and are emitted in the canonical order
very_hot, very_cold, very_windy, very_wet, very_uncomfortable in every
scenario except the monsoon scenario, which emits exactly
(very_wet, very_windy) — the two categories swapped against the canonical
order. -/
theorem C7_canonical_order (h : ℚ) (u : UnitsSys) :
    nondecreasing ((getOutlookRiskLabels h u).map (fun r => canonicalIdx r.risk_type)) = true
    ∨ (getOutlookRiskLabels h u).map (fun r => r.risk_type) = ["very_wet", "very_windy"] := by
  unfold getOutlookRiskLabels generateScenario
  split_ifs <;> cases u <;>
    first
      | exact Or.inl (by decide)
      | exact Or.inr (by decide)

/-- C8 counterexample: for target 2017-01-03 with a 7-day window the start
edge 2015-12-31 falls before the archive's lower bound and is clamped
linearly to the boundary date 2016-01-01 itself — its day of month (1)
differs from the target's (3), so the edge clamp does not preserve the
original target's month/day as the claim requires. -/
theorem C8_counterexample :
    dateLtB (subDays (histDate ⟨2017, 1, 3⟩) 3) minAllowedDate = true ∧
    (selectWindow ⟨2017, 1, 3⟩ 7).1 = minAllowedDate ∧
    minAllowedDate.day ≠ (⟨2017, 1, 3⟩ : YMD).day := by decide

/-- C8 (amended): for any target date that is not Feb 29, the historical
anchor keeps the target's month and day (the same day-of-year in another
year: one year back, stepped further back past the archive's upper bound,
and anchored to the lower bound's year with month/day restored if below
it), and the window edges are `anchor ∓ floor(window/2)` days with each
out-of-range edge replaced linearly by the boundary date itself — not by an
anchored month/day-preserving clamp. -/
theorem C8_window_selection (t : YMD) (w : ℕ)
    (hd1 : 1 ≤ t.day) (hd2 : t.day ≤ daysInMonthNL t.month) :
    (histDate t).month = t.month ∧ (histDate t).day = t.day ∧
    (selectWindow t w).1 =
      (if dateLtB (subDays (histDate t) (w / 2)) minAllowedDate then minAllowedDate
       else subDays (histDate t) (w / 2)) ∧
    (selectWindow t w).2 =
      (if dateLtB maxAllowedDate (addDays (histDate t) (w / 2)) then maxAllowedDate
       else addDays (histDate t) (w / 2)) := by
  have hback := backWhile_md t.year ⟨t.year - 1, t.month, t.day⟩ hd2
  have hh : histDate t =
      (if dateLtB (backWhile t.year ⟨t.year - 1, t.month, t.day⟩) minAllowedDate
       then (⟨minAllowedDate.year, t.month, t.day⟩ : YMD)
       else backWhile t.year ⟨t.year - 1, t.month, t.day⟩) := by
    unfold histDate
    rw [subYearJS_md t hd2]
  have hmd : (histDate t).month = t.month ∧ (histDate t).day = t.day := by
    rw [hh]
    split
    · exact ⟨rfl, rfl⟩
    · exact hback
  exact ⟨hmd.1, hmd.2, rfl, rfl⟩

/-- C8 witness: the theorem applied to the target 2030-07-15 with a 15-day
window; the anchor is 2025-07-15 (month and day preserved). -/
theorem C8_witness :
    1 ≤ (⟨2030, 7, 15⟩ : YMD).day ∧
    (⟨2030, 7, 15⟩ : YMD).day ≤ daysInMonthNL (⟨2030, 7, 15⟩ : YMD).month ∧
    ((histDate ⟨2030, 7, 15⟩).month = (⟨2030, 7, 15⟩ : YMD).month ∧
     (histDate ⟨2030, 7, 15⟩).day = (⟨2030, 7, 15⟩ : YMD).day ∧
     (selectWindow ⟨2030, 7, 15⟩ 15).1 =
       (if dateLtB (subDays (histDate ⟨2030, 7, 15⟩) (15 / 2)) minAllowedDate
        then minAllowedDate else subDays (histDate ⟨2030, 7, 15⟩) (15 / 2)) ∧
     (selectWindow ⟨2030, 7, 15⟩ 15).2 =
       (if dateLtB maxAllowedDate (addDays (histDate ⟨2030, 7, 15⟩) (15 / 2))
        then maxAllowedDate else addDays (histDate ⟨2030, 7, 15⟩) (15 / 2))) :=
  ⟨by decide, by decide, C8_window_selection ⟨2030, 7, 15⟩ 15 (by decide) (by decide)⟩
